import Mathlib

/-!
Shallow embedding of the HD44780 character-LCD driver
(repository dsabala/hd44780, file src/unnamed/part_001 together with the
public header src/src/hd44780.h).

Modelling conventions:

* The hardware side of the driver is a trace of callback invocations.
  The GPIO / bus / delay callbacks of the C driver context are pure
  recorders: each call appends one `bus_event` to the trace.  The bus
  read callback additionally consumes one byte from an oracle stream
  `readStream` (indexed by the number of reads performed so far), which
  models whatever the display hardware would place on the bus; the C
  callback returns `uint8_t`, so the oracle value is truncated mod 256.
* The busy-wait callback `cb_wait_for_busy_flag_clear` is kept as a real
  function field of the context, because the C driver lets the caller
  substitute an arbitrary strategy there.
* Machine integers are `Nat` with explicit `% 256` exactly where the C
  code performs an implicit conversion to `uint8_t`.
* Text is a `List Nat` holding the bytes of the C string that precede
  the first NUL byte.  `char` is modelled as an unsigned byte, matching
  the ARM EABI of the accompanying STM32 example (with signed `char`
  the multi-byte branches of `hd44780_write_text` would be unreachable).
  The C decoder reads continuation bytes without any bounds check and
  can run past the terminator; the model reads those bytes as zero,
  i.e. memory after the string is modelled as NUL bytes.
-/

/-- C source: hd44780_ret_e status codes (src/src/hd44780.h lines 33-40). -/
inductive hd44780_ret_e where
  | HD44780_OK
  | HD44780_INV_ARG
  | HD44780_TIMEOUT
  | HD44780_CUSTOM_CHARS_INV
  | HD44780_CHAR_NOT_FOUND
deriving DecidableEq

/-- C source: hd44780_interface (src/src/hd44780.h lines 42-46). -/
inductive hd44780_interface where
  | INTERFACE_4BIT
  | INTERFACE_8BIT
deriving DecidableEq

/-- C source: hd44780_cursor (src/src/hd44780.h lines 48-53). -/
inductive hd44780_cursor where
  | CURSOR_OFF
  | CURSOR_ON
  | CURSOR_BLINK
deriving DecidableEq

/-- C source: hd44780_ctrl_pin (src/src/hd44780.h lines 55-60). -/
inductive hd44780_ctrl_pin where
  | HD44780_PIN_RS
  | HD44780_PIN_RW
  | HD44780_PIN_E
deriving DecidableEq

/-- C source: hd44780_pin_state (src/src/hd44780.h lines 62-66). -/
inductive hd44780_pin_state where
  | PIN_RESET
  | PIN_SET
deriving DecidableEq

/-- C source: hd44780_gpio_dir (src/src/hd44780.h lines 68-72). -/
inductive hd44780_gpio_dir where
  | GPIO_DIR_IN_
  | GPIO_DIR_OUT
deriving DecidableEq

/-- One invocation of a hardware callback, as recorded on the bus trace. -/
inductive bus_event where
  | setBusDirection (d : hd44780_gpio_dir)
  | setCtrlPin (p : hd44780_ctrl_pin) (s : hd44780_pin_state)
  | readBus (value : Nat)
  | writeBus (value : Nat)
  | delayMs (t : Nat)
  | initCommon
deriving DecidableEq

/-- Hardware environment: the trace of callback invocations so far, plus the
oracle stream of bytes the bus read callback will deliver (indexed by the
number of reads already performed). -/
structure Hw where
  trace : List bus_event
  readStream : Nat → Nat
  readCount : Nat

/-- Append one event to the trace. -/
def Hw.emit (hw : Hw) (e : bus_event) : Hw :=
  { hw with trace := hw.trace ++ [e] }

/-- Model of ctx->cb_set_bus_direction. -/
def cb_set_bus_direction (d : hd44780_gpio_dir) (hw : Hw) : Hw :=
  hw.emit (.setBusDirection d)

/-- Model of ctx->cb_set_ctrl_pin_state. -/
def cb_set_ctrl_pin_state (p : hd44780_ctrl_pin) (s : hd44780_pin_state) (hw : Hw) : Hw :=
  hw.emit (.setCtrlPin p s)

/-- Model of ctx->cb_read_bus: returns the next oracle byte (truncated to
uint8_t) and records the read. -/
def cb_read_bus (hw : Hw) : Nat × Hw :=
  let v := hw.readStream hw.readCount % 256
  (v, { hw with trace := hw.trace ++ [bus_event.readBus v], readCount := hw.readCount + 1 })

/-- Model of ctx->cb_write_bus (the callback parameter is uint8_t). -/
def cb_write_bus (v : Nat) (hw : Hw) : Hw :=
  hw.emit (.writeBus (v % 256))

/-- Model of ctx->cb_delay_ms. -/
def cb_delay_ms (t : Nat) (hw : Hw) : Hw :=
  hw.emit (.delayMs t)

/-- Model of ctx->cb_init_common. -/
def cb_init_common (hw : Hw) : Hw :=
  hw.emit .initCommon

/-- C source: character_mapping (src/src/hd44780.h lines 74-78).  The 8-byte
bitmap array is modelled as a function from the byte index. -/
structure character_mapping where
  utf_8_code : Nat
  character_bitmap : Nat → Nat

/-- C source: hd44780_ctx (src/src/hd44780.h lines 83-162).  The GPIO, bus
and delay callbacks are fixed trace recorders (see module comment), so only
the substitutable busy-wait callback and the data fields remain here.  The
custom character map pointer is a function from the array index. -/
structure hd44780_ctx where
  cb_wait_for_busy_flag_clear : Hw → hd44780_ret_e × Hw
  custom_chars_map : Nat → character_mapping
  custom_chars_map_len : Nat
  number_of_lines : Nat
  column_width : Nat
  interface : hd44780_interface

/-- A busy-wait mock that reports OK immediately and touches no hardware
(the bus-trace mock of the specification testable properties). -/
def waitBusyOk : Hw → hd44780_ret_e × Hw :=
  fun hw => (.HD44780_OK, hw)

/-- C source: HD44780_TIMEOUT_MS default (src/src/hd44780.h line 15). -/
def HD44780_TIMEOUT_MS : Nat := 100

/-- C source: HD44780_TIMEOUT_TICK_MS default (src/src/hd44780.h line 20). -/
def HD44780_TIMEOUT_TICK_MS : Nat := 1

/-- C source: DELAY_INIT_SEQ_LONG_MS default (src/src/hd44780.h line 25). -/
def DELAY_INIT_SEQ_LONG_MS : Nat := 50

/-- C source: DELAY_INIT_SEQ_SHORT_MS default (src/src/hd44780.h line 30). -/
def DELAY_INIT_SEQ_SHORT_MS : Nat := 10

/-- C source: s_config_bus_as_input (src/unnamed/part_001 lines 142-145). -/
def s_config_bus_as_input (hw : Hw) : Hw :=
  cb_set_ctrl_pin_state .HD44780_PIN_RW .PIN_SET (cb_set_bus_direction .GPIO_DIR_IN_ hw)

/-- C source: s_config_bus_as_output (src/unnamed/part_001 lines 147-150). -/
def s_config_bus_as_output (hw : Hw) : Hw :=
  cb_set_bus_direction .GPIO_DIR_OUT (cb_set_ctrl_pin_state .HD44780_PIN_RW .PIN_RESET hw)

/-- C source: s_read_operation (src/unnamed/part_001 lines 166-172). -/
def s_read_operation (hw : Hw) : Nat × Hw :=
  let hw := cb_set_ctrl_pin_state .HD44780_PIN_E .PIN_SET hw
  let r := cb_read_bus hw
  (r.1, cb_set_ctrl_pin_state .HD44780_PIN_E .PIN_RESET r.2)

/-- C source: s_read_byte (src/unnamed/part_001 lines 174-182). -/
def s_read_byte (ctx : hd44780_ctx) (hw : Hw) : Nat × Hw :=
  let hw := s_config_bus_as_input hw
  let r := s_read_operation hw
  if ctx.interface = .INTERFACE_4BIT then
    let l := s_read_operation r.2
    (r.1 ||| (l.1 >>> 4), l.2)
  else
    r

/-- C source: s_read_address (src/unnamed/part_001 lines 184-187). -/
def s_read_address (ctx : hd44780_ctx) (hw : Hw) : Nat × Hw :=
  s_read_byte ctx (cb_set_ctrl_pin_state .HD44780_PIN_RS .PIN_RESET hw)

/-- C source: s_read_data (src/unnamed/part_001 lines 189-192). -/
def s_read_data (ctx : hd44780_ctx) (hw : Hw) : Nat × Hw :=
  s_read_byte ctx (cb_set_ctrl_pin_state .HD44780_PIN_RS .PIN_SET hw)

/-- C source: s_write_operation (src/unnamed/part_001 lines 194-199). -/
def s_write_operation (hw : Hw) (data : Nat) : Hw :=
  let hw := s_config_bus_as_output hw
  let hw := cb_set_ctrl_pin_state .HD44780_PIN_E .PIN_SET hw
  let hw := cb_write_bus data hw
  cb_set_ctrl_pin_state .HD44780_PIN_E .PIN_RESET hw

/-- C source: s_write_byte (src/unnamed/part_001 lines 201-208).  In 4-bit
mode the second pulse carries (uint8_t)(data << 4). -/
def s_write_byte (ctx : hd44780_ctx) (hw : Hw) (data : Nat) : Hw :=
  if ctx.interface = .INTERFACE_8BIT then
    s_write_operation hw data
  else
    s_write_operation (s_write_operation hw data) ((data <<< 4) % 256)

/-- C source: s_write_instruction (src/unnamed/part_001 lines 210-217). -/
def s_write_instruction (ctx : hd44780_ctx) (hw : Hw) (instruction : Nat) : hd44780_ret_e × Hw :=
  match ctx.cb_wait_for_busy_flag_clear hw with
  | (.HD44780_OK, hw1) =>
      (.HD44780_OK, s_write_byte ctx (cb_set_ctrl_pin_state .HD44780_PIN_RS .PIN_RESET hw1) instruction)
  | (r, hw1) => (r, hw1)

/-- C source: s_write_data (src/unnamed/part_001 lines 219-226). -/
def s_write_data (ctx : hd44780_ctx) (hw : Hw) (data : Nat) : hd44780_ret_e × Hw :=
  match ctx.cb_wait_for_busy_flag_clear hw with
  | (.HD44780_OK, hw1) =>
      (.HD44780_OK, s_write_byte ctx (cb_set_ctrl_pin_state .HD44780_PIN_RS .PIN_SET hw1) data)
  | (r, hw1) => (r, hw1)

/-- C source: s_set_ddram_addr (src/unnamed/part_001 lines 228-230),
REG_DDRAM_ADDR_SET = 0x80. -/
def s_set_ddram_addr (ctx : hd44780_ctx) (hw : Hw) (address : Nat) : hd44780_ret_e × Hw :=
  s_write_instruction ctx hw (0x80 ||| address)

/-- C source: s_set_cgram_addr (src/unnamed/part_001 lines 232-234),
REG_CGRAM_ADDR_SET = 0x40. -/
def s_set_cgram_addr (ctx : hd44780_ctx) (hw : Hw) (address : Nat) : hd44780_ret_e × Hw :=
  s_write_instruction ctx hw (0x40 ||| address)

/-- C source: s_set_char_addr (src/unnamed/part_001 lines 236-238); the
int product index*8 is truncated by the uint8_t parameter of
s_set_cgram_addr. -/
def s_set_char_addr (ctx : hd44780_ctx) (hw : Hw) (index : Nat) : hd44780_ret_e × Hw :=
  s_set_cgram_addr ctx hw (index * 8 % 256)

/-- C source: hd44780_def_char (src/unnamed/part_001 lines 415-422).  The
loop runs i = 0..7 while the status stays HD44780_OK. -/
def hd44780_def_char (ctx : hd44780_ctx) (hw : Hw) (index : Nat) (pattern : Nat → Nat) :
    hd44780_ret_e × Hw :=
  (List.range 8).foldl
    (fun acc i => if acc.1 = .HD44780_OK then s_write_data ctx acc.2 (pattern i) else acc)
    (s_set_char_addr ctx hw index)

/-- C source: hd44780_disp_char (src/unnamed/part_001 lines 424-426). -/
def hd44780_disp_char (ctx : hd44780_ctx) (hw : Hw) (index : Nat) : hd44780_ret_e × Hw :=
  s_write_data ctx hw index

/-- C source: s_upload_custom_chars (src/unnamed/part_001 lines 240-254). -/
def s_upload_custom_chars (ctx : hd44780_ctx) (hw : Hw) : hd44780_ret_e × Hw :=
  if 8 < ctx.custom_chars_map_len then
    (.HD44780_CUSTOM_CHARS_INV, hw)
  else
    (List.range ctx.custom_chars_map_len).foldl
      (fun acc i =>
        if acc.1 = .HD44780_OK then
          hd44780_def_char ctx acc.2 i (ctx.custom_chars_map i).character_bitmap
        else acc)
      (.HD44780_OK, hw)

/-- C source: s_find_character_by_code (src/unnamed/part_001 lines 256-268).
Linear scan, first match wins; on no match the output parameter keeps the
value the caller stored there (modelled by the index argument). -/
def s_find_character_by_code (ctx : hd44780_ctx) (code : Nat) (index : Nat) :
    hd44780_ret_e × Nat :=
  match (List.range ctx.custom_chars_map_len).find?
      (fun i => (ctx.custom_chars_map i).utf_8_code == code) with
  | some i => (.HD44780_OK, i)
  | none => (.HD44780_CHAR_NOT_FOUND, index)

/-- C source: hd44780_is_busy (src/unnamed/part_001 lines 428-437). -/
def hd44780_is_busy (ctx : hd44780_ctx) (hw : Hw) : Bool × Hw :=
  let r := s_read_address ctx hw
  (decide (r.1 &&& 0x80 ≠ 0), r.2)

/-- Loop body of s_wait_till_busy, one fuel unit per entry of the C while
loop.  The C loop variable timeout_ms (an int) starts at HD44780_TIMEOUT_MS
and is decremented by HD44780_TIMEOUT_TICK_MS after every poll that still
sees the busy flag, so the body runs for timeout_ms = 100, 99, ..., 0:
HD44780_TIMEOUT_MS / HD44780_TIMEOUT_TICK_MS + 1 entries in the worst
case.  fuel counts the loop entries that remain. -/
def s_wait_till_busy_aux (ctx : hd44780_ctx) : Nat → Hw → hd44780_ret_e × Hw
  | 0, hw => (.HD44780_TIMEOUT, hw)
  | fuel + 1, hw =>
    let b := hd44780_is_busy ctx hw
    if b.1 then
      s_wait_till_busy_aux ctx fuel (cb_delay_ms HD44780_TIMEOUT_TICK_MS b.2)
    else
      (.HD44780_OK, b.2)

/-- C source: s_wait_till_busy (src/unnamed/part_001 lines 152-164), the
default busy-wait policy. -/
def s_wait_till_busy (ctx : hd44780_ctx) (hw : Hw) : hd44780_ret_e × Hw :=
  s_wait_till_busy_aux ctx (HD44780_TIMEOUT_MS / HD44780_TIMEOUT_TICK_MS + 1) hw

/-- Two-byte UTF-8 decode used by hd44780_write_text
(src/unnamed/part_001 lines 285-288). -/
def cpTwo (b0 b1 : Nat) : Nat :=
  ((b0 &&& 0x1F) <<< 6) ||| (b1 &&& 0x3F)

/-- Three-byte UTF-8 decode used by hd44780_write_text
(src/unnamed/part_001 lines 289-293). -/
def cpThree (b0 b1 b2 : Nat) : Nat :=
  ((b0 &&& 0x0F) <<< 12) ||| ((b1 &&& 0x3F) <<< 6) ||| (b2 &&& 0x3F)

/-- Four-byte UTF-8 decode used by hd44780_write_text
(src/unnamed/part_001 lines 294-299). -/
def cpFour (b0 b1 b2 b3 : Nat) : Nat :=
  ((b0 &&& 0x07) <<< 18) ||| ((b1 &&& 0x3F) <<< 12) ||| ((b2 &&& 0x3F) <<< 6) ||| (b3 &&& 0x3F)

/-- Body of the hd44780_write_text loop after a multi-byte code point has
been decoded (src/unnamed/part_001 lines 302-308): look the code point up;
when found, read the current DDRAM address, emit the slot index as display
data and restore the address to (read value + 1) truncated to uint8_t.
The statuses of hd44780_disp_char and s_set_ddram_addr are discarded,
exactly as in the C source. -/
def s_process_glyph (ctx : hd44780_ctx) (hw : Hw) (codepoint : Nat) : hd44780_ret_e × Hw :=
  match s_find_character_by_code ctx codepoint 0 with
  | (.HD44780_OK, idx) =>
    let ra := s_read_address ctx hw
    let d := hd44780_disp_char ctx ra.2 idx
    let s := s_set_ddram_addr ctx d.2 ((ra.1 + 1) % 256)
    (.HD44780_OK, s.2)
  | (r, _) => (r, hw)

/-- C source: hd44780_write_text (src/unnamed/part_001 lines 276-313).
The list holds the bytes of the string before its NUL terminator;
continuation bytes the C code would read beyond the end of the list are
modelled as zero (see module comment). -/
def hd44780_write_text (ctx : hd44780_ctx) : List Nat → Hw → hd44780_ret_e × Hw
  | [], hw => (.HD44780_OK, hw)
  | b :: rest, hw =>
    if b = 0 then (.HD44780_OK, hw)
    else if b ≤ 0x7F then
      match s_write_data ctx hw b with
      | (.HD44780_OK, hw1) => hd44780_write_text ctx rest hw1
      | (r, hw1) => (r, hw1)
    else if b ≤ 0xDF then
      match rest with
      | [] =>
        s_process_glyph ctx hw (cpTwo b 0)
      | b1 :: rest1 =>
        match s_process_glyph ctx hw (cpTwo b b1) with
        | (.HD44780_OK, hw1) => hd44780_write_text ctx rest1 hw1
        | (r, hw1) => (r, hw1)
    else if b ≤ 0xEF then
      match rest with
      | [] =>
        s_process_glyph ctx hw (cpThree b 0 0)
      | b1 :: rest1 =>
        match rest1 with
        | [] =>
          s_process_glyph ctx hw (cpThree b b1 0)
        | b2 :: rest2 =>
          match s_process_glyph ctx hw (cpThree b b1 b2) with
          | (.HD44780_OK, hw1) => hd44780_write_text ctx rest2 hw1
          | (r, hw1) => (r, hw1)
    else
      match rest with
      | [] =>
        s_process_glyph ctx hw (cpFour b 0 0 0)
      | b1 :: rest1 =>
        match rest1 with
        | [] =>
          s_process_glyph ctx hw (cpFour b b1 0 0)
        | b2 :: rest2 =>
          match rest2 with
          | [] =>
            s_process_glyph ctx hw (cpFour b b1 b2 0)
          | b3 :: rest3 =>
            match s_process_glyph ctx hw (cpFour b b1 b2 b3) with
            | (.HD44780_OK, hw1) => hd44780_write_text ctx rest3 hw1
            | (r, hw1) => (r, hw1)

/-- C source: hd44780_clear (src/unnamed/part_001 lines 272-274),
REG_CLEAR = 0x01. -/
def hd44780_clear (ctx : hd44780_ctx) (hw : Hw) : hd44780_ret_e × Hw :=
  s_write_instruction ctx hw 0x01

/-- C source: hd44780_set_pos (src/unnamed/part_001 lines 315-344).  The
address variable is a uint8_t, so every += wraps mod 256. -/
def hd44780_set_pos (ctx : hd44780_ctx) (hw : Hw) (row column : Nat) : hd44780_ret_e × Hw :=
  if ctx.column_width ≤ column ∨ ctx.number_of_lines ≤ row then
    (.HD44780_INV_ARG, hw)
  else
    let address := column
    let address :=
      if row = 1 then (address + 0x40) % 256
      else if row = 2 then (address + ctx.column_width) % 256
      else if row = 3 then ((address + 0x40) % 256 + ctx.column_width) % 256
      else address
    s_set_ddram_addr ctx hw address

/-- C source: hd44780_cursor_cfg (src/unnamed/part_001 lines 346-364),
REG_PWR_AND_CURSOR = 0x08, REG_DISPLAY_ON = 0x04, REG_CURSOR_ON = 0x02,
REG_CURSOR_BLINK = 0x01.  The final else branch of the C code returns
HD44780_INV_ARG for values outside the enum; it is unreachable for a
well-typed hd44780_cursor. -/
def hd44780_cursor_cfg (ctx : hd44780_ctx) (hw : Hw) (cursor_cfg : hd44780_cursor) :
    hd44780_ret_e × Hw :=
  match cursor_cfg with
  | .CURSOR_OFF => s_write_instruction ctx hw (0x08 ||| 0x04)
  | .CURSOR_ON => s_write_instruction ctx hw (0x08 ||| 0x04 ||| 0x02)
  | .CURSOR_BLINK => s_write_instruction ctx hw (0x08 ||| 0x04 ||| 0x02 ||| 0x01)

/-- C source: hd44780_display_off (src/unnamed/part_001 lines 411-413),
REG_PWR_AND_CURSOR | REG_DISPLAY_OFF = 0x08. -/
def hd44780_display_off (ctx : hd44780_ctx) (hw : Hw) : hd44780_ret_e × Hw :=
  s_write_instruction ctx hw 0x08

/-- C source: hd44780_init (src/unnamed/part_001 lines 366-409).  The
two-iteration for loop is unrolled; REG_INTERFACE = 0x20,
REG_8_BIT_BUS = 0x10, REG_TWO_LINES = 0x08, REG_EM = 0x04,
REG_EM_INCREMENT = 0x02. -/
def hd44780_init (ctx : hd44780_ctx) (hw : Hw) : hd44780_ret_e × Hw :=
  let hw := cb_init_common hw
  let hw := cb_set_ctrl_pin_state .HD44780_PIN_RS .PIN_RESET hw
  let hw := s_write_operation hw (0x20 ||| 0x10)
  let hw := cb_delay_ms DELAY_INIT_SEQ_LONG_MS hw
  let hw := cb_delay_ms DELAY_INIT_SEQ_SHORT_MS (s_write_operation hw (0x20 ||| 0x10))
  let hw := cb_delay_ms DELAY_INIT_SEQ_SHORT_MS (s_write_operation hw (0x20 ||| 0x10))
  let step : hd44780_ret_e × Hw :=
    if ctx.interface = .INTERFACE_8BIT then
      (.HD44780_OK, s_write_operation hw (0x20 ||| 0x08 ||| 0x10))
    else
      let hw := s_write_operation hw 0x20
      let hw := cb_delay_ms DELAY_INIT_SEQ_SHORT_MS hw
      s_write_instruction ctx hw (0x20 ||| 0x08)
  match step with
  | (.HD44780_OK, hw) =>
    (match hd44780_display_off ctx hw with
     | (.HD44780_OK, hw) =>
       (match hd44780_clear ctx hw with
        | (.HD44780_OK, hw) =>
          (match s_write_instruction ctx hw (0x04 ||| 0x02) with
           | (.HD44780_OK, hw) =>
             (match hd44780_cursor_cfg ctx hw .CURSOR_OFF with
              | (.HD44780_OK, hw) => s_upload_custom_chars ctx hw
              | (r, hw) => (r, hw))
           | (r, hw) => (r, hw))
        | (r, hw) => (r, hw))
     | (r, hw) => (r, hw))
  | (r, hw) => (r, hw)

/-! Definitions supporting the theorems: counters over the bus trace, the
state of the default busy-wait after a number of polls, an abstract view of
one text character, and concrete contexts used by witnesses. -/

/-- Number of delay callback invocations recorded on a trace. -/
def countDelay (t : List bus_event) : Nat :=
  t.countP fun e => match e with | .delayMs _ => true | _ => false

/-- Number of bus read callback invocations recorded on a trace. -/
def countRead (t : List bus_event) : Nat :=
  t.countP fun e => match e with | .readBus _ => true | _ => false

/-- Hardware state seen by the default busy-wait just before its poll
number k (0-based): k busy polls have happened, each followed by one
delay tick. -/
def pollState (ctx : hd44780_ctx) (hw : Hw) : Nat → Hw
  | 0 => hw
  | k + 1 => cb_delay_ms HD44780_TIMEOUT_TICK_MS (hd44780_is_busy ctx (pollState ctx hw k)).2

/-- One character of the input text, as the hd44780_write_text decoder
classifies it by the lead byte. -/
inductive TChar where
  | ascii (b : Nat)
  | twoByte (b0 b1 : Nat)
  | threeByte (b0 b1 b2 : Nat)
  | fourByte (b0 b1 b2 b3 : Nat)

/-- Byte sequence of the character in the input list. -/
def TChar.bytes : TChar → List Nat
  | .ascii b => [b]
  | .twoByte b0 b1 => [b0, b1]
  | .threeByte b0 b1 b2 => [b0, b1, b2]
  | .fourByte b0 b1 b2 b3 => [b0, b1, b2, b3]

/-- Code point the hd44780_write_text decoder computes for the character. -/
def TChar.cp : TChar → Nat
  | .ascii b => b
  | .twoByte b0 b1 => cpTwo b0 b1
  | .threeByte b0 b1 b2 => cpThree b0 b1 b2
  | .fourByte b0 b1 b2 b3 => cpFour b0 b1 b2 b3

/-- Well-formed character: the lead byte lies in the range that selects
this branch of the decoder and all bytes are bytes. -/
def TChar.wf : TChar → Prop
  | .ascii b => 0 < b ∧ b ≤ 0x7F
  | .twoByte b0 b1 => 0x7F < b0 ∧ b0 ≤ 0xDF ∧ 0 < b1 ∧ b1 < 256
  | .threeByte b0 b1 b2 => 0xDF < b0 ∧ b0 ≤ 0xEF ∧ 0 < b1 ∧ b1 < 256 ∧ 0 < b2 ∧ b2 < 256
  | .fourByte b0 b1 b2 b3 =>
      0xEF < b0 ∧ b0 < 256 ∧ 0 < b1 ∧ b1 < 256 ∧ 0 < b2 ∧ b2 < 256 ∧ 0 < b3 ∧ b3 < 256

/-- True for the plain ASCII shape. -/
def TChar.isAscii : TChar → Bool
  | .ascii _ => true
  | _ => false

/-- The hd44780_write_text loop renders this character and moves on: plain
ASCII is written directly, a multi-byte character is in the glyph map. -/
def TChar.renderable (ctx : hd44780_ctx) : TChar → Prop
  | .ascii _ => True
  | c => (s_find_character_by_code ctx c.cp 0).1 = .HD44780_OK

/-- Hardware effect of one loop iteration of hd44780_write_text on a
renderable character. -/
def renderChar (ctx : hd44780_ctx) (hw : Hw) (c : TChar) : Hw :=
  match c with
  | .ascii b => (s_write_data ctx hw b).2
  | c => (s_process_glyph ctx hw c.cp).2

/-- Hardware effect of rendering a list of characters in order. -/
def renderText (ctx : hd44780_ctx) (hw : Hw) (cs : List TChar) : Hw :=
  cs.foldl (renderChar ctx) hw

/-- Empty hardware state whose bus reads all return 0. -/
def hwEmpty : Hw :=
  { trace := [], readStream := fun _ => 0, readCount := 0 }

/-- Hardware state on which every bus read has the busy bit set. -/
def hwBusy : Hw :=
  { trace := [], readStream := fun _ => 0x80, readCount := 0 }

/-- Hardware state whose first bus read returns 0x0F and later reads 0. -/
def hwNibble : Hw :=
  { trace := [], readStream := fun n => if n = 0 then 0x0F else 0, readCount := 0 }

/-- Witness context: pure-OK busy-wait mock, one glyph mapping code point
0x100 to slot 0, 4 lines of 20 columns, 8-bit bus. -/
def ctxMock : hd44780_ctx :=
  { cb_wait_for_busy_flag_clear := waitBusyOk
    custom_chars_map := fun _ => { utf_8_code := 0x100, character_bitmap := fun _ => 0 }
    custom_chars_map_len := 1
    number_of_lines := 4
    column_width := 20
    interface := .INTERFACE_8BIT }

/-- Witness context: busy-wait callback that always reports TIMEOUT. -/
def ctxTimeoutCb : hd44780_ctx :=
  { ctxMock with cb_wait_for_busy_flag_clear := fun hw => (.HD44780_TIMEOUT, hw) }

/-- Witness context: 4-bit bus variant of ctxMock. -/
def ctxFourBit : hd44780_ctx :=
  { ctxMock with interface := .INTERFACE_4BIT }

/-- Witness context: ctxMock with a 9-entry custom character map. -/
def ctxNineChars : hd44780_ctx :=
  { ctxMock with custom_chars_map_len := 9 }

/-! Helper lemmas shared by the claim theorems. -/

/-- The status of a framed instruction write is the busy-wait status. -/
theorem s_write_instruction_ret (ctx : hd44780_ctx) (hw : Hw) (b : Nat) :
    (s_write_instruction ctx hw b).1 = (ctx.cb_wait_for_busy_flag_clear hw).1 := by
  rcases hwc : ctx.cb_wait_for_busy_flag_clear hw with ⟨r, hw1⟩
  cases r <;> simp [s_write_instruction, hwc]

/-- The status of a framed data write is the busy-wait status. -/
theorem s_write_data_ret (ctx : hd44780_ctx) (hw : Hw) (b : Nat) :
    (s_write_data ctx hw b).1 = (ctx.cb_wait_for_busy_flag_clear hw).1 := by
  rcases hwc : ctx.cb_wait_for_busy_flag_clear hw with ⟨r, hw1⟩
  cases r <;> simp [s_write_data, hwc]

/-- With the pure-OK busy-wait mock a framed instruction write succeeds and
sets RS low before transmitting. -/
theorem s_write_instruction_okmock (ctx : hd44780_ctx) (hw : Hw) (b : Nat)
    (hwb : ctx.cb_wait_for_busy_flag_clear = waitBusyOk) :
    s_write_instruction ctx hw b =
      (.HD44780_OK, s_write_byte ctx (cb_set_ctrl_pin_state .HD44780_PIN_RS .PIN_RESET hw) b) := by
  simp [s_write_instruction, hwb, waitBusyOk]

/-- With the pure-OK busy-wait mock a framed data write succeeds and sets RS
high before transmitting. -/
theorem s_write_data_okmock (ctx : hd44780_ctx) (hw : Hw) (b : Nat)
    (hwb : ctx.cb_wait_for_busy_flag_clear = waitBusyOk) :
    s_write_data ctx hw b =
      (.HD44780_OK, s_write_byte ctx (cb_set_ctrl_pin_state .HD44780_PIN_RS .PIN_SET hw) b) := by
  simp [s_write_data, hwb, waitBusyOk]

/-- C5: the framed operations s_write_instruction and s_write_data first run
the busy-wait callback; on TIMEOUT they return TIMEOUT with the hardware
exactly as the busy-wait left it (no RS change, no bus write), and on OK
they set RS (low for instruction, high for data) and transmit the byte via
the bus transport. -/
theorem framed_write_busy_gate (ctx : hd44780_ctx) (hw : Hw) (b : Nat) :
    ((ctx.cb_wait_for_busy_flag_clear hw).1 = .HD44780_TIMEOUT →
      s_write_instruction ctx hw b = (.HD44780_TIMEOUT, (ctx.cb_wait_for_busy_flag_clear hw).2) ∧
      s_write_data ctx hw b = (.HD44780_TIMEOUT, (ctx.cb_wait_for_busy_flag_clear hw).2)) ∧
    ((ctx.cb_wait_for_busy_flag_clear hw).1 = .HD44780_OK →
      s_write_instruction ctx hw b =
        (.HD44780_OK, s_write_byte ctx
          (cb_set_ctrl_pin_state .HD44780_PIN_RS .PIN_RESET (ctx.cb_wait_for_busy_flag_clear hw).2) b) ∧
      s_write_data ctx hw b =
        (.HD44780_OK, s_write_byte ctx
          (cb_set_ctrl_pin_state .HD44780_PIN_RS .PIN_SET (ctx.cb_wait_for_busy_flag_clear hw).2) b)) := by
  rcases hwc : ctx.cb_wait_for_busy_flag_clear hw with ⟨r, hw1⟩
  cases r <;> simp_all [s_write_instruction, s_write_data, hwc]

/-- C5 witness: instance at the always-TIMEOUT and pure-OK mock contexts. -/
theorem framed_write_busy_gate_witness :
    (s_write_instruction ctxTimeoutCb hwEmpty 0x80 =
        (.HD44780_TIMEOUT, (ctxTimeoutCb.cb_wait_for_busy_flag_clear hwEmpty).2) ∧
      s_write_data ctxTimeoutCb hwEmpty 0x80 =
        (.HD44780_TIMEOUT, (ctxTimeoutCb.cb_wait_for_busy_flag_clear hwEmpty).2)) ∧
    (s_write_instruction ctxMock hwEmpty 0x41 =
        (.HD44780_OK, s_write_byte ctxMock
          (cb_set_ctrl_pin_state .HD44780_PIN_RS .PIN_RESET
            (ctxMock.cb_wait_for_busy_flag_clear hwEmpty).2) 0x41) ∧
      s_write_data ctxMock hwEmpty 0x41 =
        (.HD44780_OK, s_write_byte ctxMock
          (cb_set_ctrl_pin_state .HD44780_PIN_RS .PIN_SET
            (ctxMock.cb_wait_for_busy_flag_clear hwEmpty).2) 0x41)) :=
  ⟨(framed_write_busy_gate ctxTimeoutCb hwEmpty 0x80).1 rfl,
   (framed_write_busy_gate ctxMock hwEmpty 0x41).2 rfl⟩

/-- C8: out-of-range row or column makes hd44780_set_pos return
HD44780_INV_ARG with the hardware untouched (no callback invoked). -/
theorem set_pos_invalid_args (ctx : hd44780_ctx) (hw : Hw) (row column : Nat)
    (h : ctx.column_width ≤ column ∨ ctx.number_of_lines ≤ row) :
    hd44780_set_pos ctx hw row column = (.HD44780_INV_ARG, hw) := by
  simp [hd44780_set_pos, h]

/-- C8 witness: row 4 is out of range on a 4-line display. -/
theorem set_pos_invalid_args_witness :
    hd44780_set_pos ctxMock hwEmpty 4 0 = (.HD44780_INV_ARG, hwEmpty) :=
  set_pos_invalid_args ctxMock hwEmpty 4 0 (by right; decide)

/-- C1: for in-range row and column, hd44780_set_pos frames exactly one
DDRAM-address-set instruction whose address is the fixed per-row offset
(0x00, 0x40, column_width, 0x40 + column_width for rows 0-3) plus the
column, in uint8_t arithmetic, and it returns HD44780_OK when the framed
write succeeds. -/
theorem set_pos_valid_addresses (ctx : hd44780_ctx) (hw : Hw) (row column : Nat)
    (hr : row < ctx.number_of_lines) (hc : column < ctx.column_width)
    (hwid : ctx.column_width < 256) :
    hd44780_set_pos ctx hw row column =
      s_set_ddram_addr ctx hw
        (((if row = 1 then 0x40 else if row = 2 then ctx.column_width
           else if row = 3 then 0x40 + ctx.column_width else 0) + column) % 256) ∧
    ((ctx.cb_wait_for_busy_flag_clear hw).1 = .HD44780_OK →
      (hd44780_set_pos ctx hw row column).1 = .HD44780_OK) := by
  have hguard : ¬(ctx.column_width ≤ column ∨ ctx.number_of_lines ≤ row) := by omega
  have haddr : hd44780_set_pos ctx hw row column =
      s_set_ddram_addr ctx hw
        (((if row = 1 then 0x40 else if row = 2 then ctx.column_width
           else if row = 3 then 0x40 + ctx.column_width else 0) + column) % 256) := by
    simp only [hd44780_set_pos, if_neg hguard]
    congr 1
    split_ifs <;> omega
  refine ⟨haddr, fun hok => ?_⟩
  rw [haddr]
  simp [s_set_ddram_addr, s_write_instruction_ret, hok]

/-- C1 witness: row 1, column 3 on the 4x20 mock yields address 0x43. -/
theorem set_pos_valid_addresses_witness :
    hd44780_set_pos ctxMock hwEmpty 1 3 =
      s_set_ddram_addr ctxMock hwEmpty
        (((if 1 = 1 then 0x40 else if 1 = 2 then ctxMock.column_width
           else if 1 = 3 then 0x40 + ctxMock.column_width else 0) + 3) % 256) ∧
    ((ctxMock.cb_wait_for_busy_flag_clear hwEmpty).1 = .HD44780_OK →
      (hd44780_set_pos ctxMock hwEmpty 1 3).1 = .HD44780_OK) :=
  set_pos_valid_addresses ctxMock hwEmpty 1 3 (by decide) (by decide) (by decide)

/-- Folding framed data writes never produces HD44780_INV_ARG when the
busy-wait callback never does. -/
theorem foldl_write_data_ne_inv (ctx : hd44780_ctx)
    (hnv : ∀ h, (ctx.cb_wait_for_busy_flag_clear h).1 ≠ .HD44780_INV_ARG)
    (pattern : Nat → Nat) :
    ∀ (l : List Nat) (acc : hd44780_ret_e × Hw), acc.1 ≠ .HD44780_INV_ARG →
      ((l.foldl
          (fun acc i => if acc.1 = .HD44780_OK then s_write_data ctx acc.2 (pattern i) else acc)
          acc).1 ≠ .HD44780_INV_ARG) := by
  intro l
  induction l with
  | nil => intro acc hacc; simpa using hacc
  | cons i l2 ih =>
    intro acc hacc
    simp only [List.foldl_cons]
    apply ih
    by_cases hok : acc.1 = .HD44780_OK
    · simp only [hok, if_pos]
      rw [s_write_data_ret]
      exact hnv _
    · simpa [hok] using hacc

/-- C10: hd44780_def_char frames a CGRAM-address-set instruction with
operand 0x40 OR (index*8 truncated to uint8_t) and then writes the 8
pattern bytes; hd44780_disp_char frames a data write of the raw index
byte; neither validates the index against the 8-slot limit, and (with a
busy-wait callback that only reports OK or TIMEOUT, per its contract)
neither can return HD44780_INV_ARG. -/
theorem def_disp_char_unvalidated :
    (∀ (ctx : hd44780_ctx) (hw : Hw) (index : Nat) (pattern : Nat → Nat),
      hd44780_def_char ctx hw index pattern =
        (List.range 8).foldl
          (fun acc i => if acc.1 = .HD44780_OK then s_write_data ctx acc.2 (pattern i) else acc)
          (s_write_instruction ctx hw (0x40 ||| (index * 8 % 256)))) ∧
    (∀ (ctx : hd44780_ctx) (hw : Hw) (index : Nat),
      hd44780_disp_char ctx hw index = s_write_data ctx hw index) ∧
    (∀ (ctx : hd44780_ctx) (hw : Hw) (index : Nat) (pattern : Nat → Nat),
      (∀ h, (ctx.cb_wait_for_busy_flag_clear h).1 ≠ .HD44780_INV_ARG) →
      (hd44780_def_char ctx hw index pattern).1 ≠ .HD44780_INV_ARG ∧
      (hd44780_disp_char ctx hw index).1 ≠ .HD44780_INV_ARG) := by
  refine ⟨fun ctx hw index pattern => rfl, fun ctx hw index => rfl, ?_⟩
  intro ctx hw index pattern hnv
  constructor
  · apply foldl_write_data_ne_inv ctx hnv pattern
    rw [show (s_set_char_addr ctx hw index).1 = (ctx.cb_wait_for_busy_flag_clear hw).1 from
      s_write_instruction_ret ctx hw _]
    exact hnv hw
  · rw [show (hd44780_disp_char ctx hw index).1 = (ctx.cb_wait_for_busy_flag_clear hw).1 from
      s_write_data_ret ctx hw index]
    exact hnv hw

/-- C10 witness: index 9 (beyond the 8 CGRAM slots) is accepted unchecked. -/
theorem def_disp_char_unvalidated_witness :
    (hd44780_def_char ctxMock hwEmpty 9 (fun _ => 0) =
      (List.range 8).foldl
        (fun acc i => if acc.1 = .HD44780_OK then s_write_data ctxMock acc.2 ((fun _ => 0) i) else acc)
        (s_write_instruction ctxMock hwEmpty (0x40 ||| (9 * 8 % 256)))) ∧
    (hd44780_disp_char ctxMock hwEmpty 9 = s_write_data ctxMock hwEmpty 9) ∧
    ((hd44780_def_char ctxMock hwEmpty 9 (fun _ => 0)).1 ≠ .HD44780_INV_ARG ∧
      (hd44780_disp_char ctxMock hwEmpty 9).1 ≠ .HD44780_INV_ARG) :=
  ⟨def_disp_char_unvalidated.1 ctxMock hwEmpty 9 (fun _ => 0),
   def_disp_char_unvalidated.2.1 ctxMock hwEmpty 9,
   def_disp_char_unvalidated.2.2 ctxMock hwEmpty 9 (fun _ => 0) (fun h => by simp [ctxMock, waitBusyOk])⟩

/-- C4: a custom character map longer than 8 entries makes the upload stage
abort with HD44780_CUSTOM_CHARS_INV before any CGRAM traffic (the hardware
state is returned untouched from any state), and hd44780_init (driven by
the pure-OK busy-wait mock) returns HD44780_CUSTOM_CHARS_INV. -/
theorem init_custom_chars_inv_abort (ctx : hd44780_ctx) (hw : Hw)
    (hlen : 8 < ctx.custom_chars_map_len)
    (hwb : ctx.cb_wait_for_busy_flag_clear = waitBusyOk) :
    (∀ hw2, s_upload_custom_chars ctx hw2 = (.HD44780_CUSTOM_CHARS_INV, hw2)) ∧
    (hd44780_init ctx hw).1 = .HD44780_CUSTOM_CHARS_INV := by
  have hupl : ∀ hw2, s_upload_custom_chars ctx hw2 = (.HD44780_CUSTOM_CHARS_INV, hw2) :=
    fun hw2 => by simp [s_upload_custom_chars, hlen]
  refine ⟨hupl, ?_⟩
  cases hI : ctx.interface <;>
    simp [hd44780_init, hI, hd44780_display_off, hd44780_clear, hd44780_cursor_cfg,
      s_write_instruction, hwb, waitBusyOk, hupl]

/-- C4 witness: the 9-entry mock context. -/
theorem init_custom_chars_inv_abort_witness :
    s_upload_custom_chars ctxNineChars hwEmpty = (.HD44780_CUSTOM_CHARS_INV, hwEmpty) ∧
    (hd44780_init ctxNineChars hwEmpty).1 = .HD44780_CUSTOM_CHARS_INV :=
  ⟨(init_custom_chars_inv_abort ctxNineChars hwEmpty (by decide) rfl).1 hwEmpty,
   (init_custom_chars_inv_abort ctxNineChars hwEmpty (by decide) rfl).2⟩

set_option maxRecDepth 100000 in
/-- Combining a byte whose low nibble is clear with a value below 16: the
OR keeps the high nibble and installs the low nibble (byte-bounded fact,
settled by enumeration). -/
theorem nibble_combine_lemma :
    ∀ a, a < 256 → ∀ s, s < 16 → a % 16 = 0 → ((a ||| s) / 16 = a / 16 ∧ (a ||| s) % 16 = s) := by
  decide

/-- C9 counterexample: with the first bus read returning 0x0F (data only in
the lower nibble, which the hardware contract leaves undefined) and the
second returning 0x00, the 4-bit read returns 0x0F, not the byte built
from the two high nibbles (which would be 0x00). -/
theorem read_byte_4bit_cex :
    (s_read_byte ctxFourBit hwNibble).1 = 0x0F ∧
    (s_read_byte ctxFourBit hwNibble).1 ≠ ((0x0F &&& 0xF0) ||| (0x00 >>> 4)) := by
  decide

/-- C9 (amended): in 4-bit mode s_read_byte pulses enable twice and returns
the whole first read byte OR-ed with the second read byte shifted down by
4; the high nibble is the first read byte high nibble, but the low nibble
also keeps the first read byte low nibble, so it equals the second read
high nibble only when the first read low nibble is clear. -/
theorem read_byte_4bit_combine (ctx : hd44780_ctx) (hw : Hw)
    (h4 : ctx.interface = .INTERFACE_4BIT) :
    s_read_byte ctx hw =
      ((hw.readStream hw.readCount % 256) ||| ((hw.readStream (hw.readCount + 1) % 256) >>> 4),
        { trace := hw.trace ++
            [.setBusDirection .GPIO_DIR_IN_, .setCtrlPin .HD44780_PIN_RW .PIN_SET,
             .setCtrlPin .HD44780_PIN_E .PIN_SET, .readBus (hw.readStream hw.readCount % 256),
             .setCtrlPin .HD44780_PIN_E .PIN_RESET, .setCtrlPin .HD44780_PIN_E .PIN_SET,
             .readBus (hw.readStream (hw.readCount + 1) % 256),
             .setCtrlPin .HD44780_PIN_E .PIN_RESET],
          readStream := hw.readStream, readCount := hw.readCount + 2 }) ∧
    ((hw.readStream hw.readCount % 256) % 16 = 0 →
      (s_read_byte ctx hw).1 / 16 = (hw.readStream hw.readCount % 256) / 16 ∧
      (s_read_byte ctx hw).1 % 16 = (hw.readStream (hw.readCount + 1) % 256) / 16) := by
  have hmain : s_read_byte ctx hw =
      ((hw.readStream hw.readCount % 256) ||| ((hw.readStream (hw.readCount + 1) % 256) >>> 4),
        { trace := hw.trace ++
            [.setBusDirection .GPIO_DIR_IN_, .setCtrlPin .HD44780_PIN_RW .PIN_SET,
             .setCtrlPin .HD44780_PIN_E .PIN_SET, .readBus (hw.readStream hw.readCount % 256),
             .setCtrlPin .HD44780_PIN_E .PIN_RESET, .setCtrlPin .HD44780_PIN_E .PIN_SET,
             .readBus (hw.readStream (hw.readCount + 1) % 256),
             .setCtrlPin .HD44780_PIN_E .PIN_RESET],
          readStream := hw.readStream, readCount := hw.readCount + 2 }) := by
    simp [s_read_byte, h4, s_config_bus_as_input, s_read_operation, cb_read_bus,
      cb_set_ctrl_pin_state, cb_set_bus_direction, Hw.emit]
  refine ⟨hmain, fun hlo => ?_⟩
  rw [hmain]
  have hs : (hw.readStream (hw.readCount + 1) % 256) >>> 4 < 16 := by
    rw [Nat.shiftRight_eq_div_pow]
    omega
  have ha : hw.readStream hw.readCount % 256 < 256 := by omega
  have hres := nibble_combine_lemma (hw.readStream hw.readCount % 256) ha
    ((hw.readStream (hw.readCount + 1) % 256) >>> 4) hs hlo
  refine ⟨hres.1, ?_⟩
  rw [hres.2, Nat.shiftRight_eq_div_pow]

/-- C9 witness: the amended statement at a state whose reads deliver 0x20
then 0x70. -/
theorem read_byte_4bit_combine_witness :
    s_read_byte ctxFourBit
        { trace := [], readStream := fun n => if n = 0 then 0x20 else 0x70, readCount := 0 } =
      ((0x20 : Nat) ||| ((0x70 : Nat) >>> 4),
        { trace :=
            [.setBusDirection .GPIO_DIR_IN_, .setCtrlPin .HD44780_PIN_RW .PIN_SET,
             .setCtrlPin .HD44780_PIN_E .PIN_SET, .readBus 0x20,
             .setCtrlPin .HD44780_PIN_E .PIN_RESET, .setCtrlPin .HD44780_PIN_E .PIN_SET,
             .readBus 0x70, .setCtrlPin .HD44780_PIN_E .PIN_RESET],
          readStream := fun n => if n = 0 then 0x20 else 0x70, readCount := 2 }) ∧
    ((0x20 : Nat) % 16 = 0 →
      (s_read_byte ctxFourBit
          { trace := [], readStream := fun n => if n = 0 then 0x20 else 0x70,
            readCount := 0 }).1 / 16 = 0x20 / 16 ∧
      (s_read_byte ctxFourBit
          { trace := [], readStream := fun n => if n = 0 then 0x20 else 0x70,
            readCount := 0 }).1 % 16 = 0x70 / 16) := by
  have h := read_byte_4bit_combine ctxFourBit
    { trace := [], readStream := fun n => if n = 0 then 0x20 else 0x70, readCount := 0 } rfl
  exact ⟨by simpa using h.1, fun hlo => by simpa using h.2 (by decide)⟩

/-- The status of the glyph-processing step is the lookup status. -/
theorem s_process_glyph_ret (ctx : hd44780_ctx) (hw : Hw) (cp : Nat) :
    (s_process_glyph ctx hw cp).1 = (s_find_character_by_code ctx cp 0).1 := by
  rcases hfe : s_find_character_by_code ctx cp 0 with ⟨r, i⟩
  cases r <;> simp [s_process_glyph, hfe]

/-- A failed lookup leaves the hardware untouched. -/
theorem s_process_glyph_nf (ctx : hd44780_ctx) (hw : Hw) (cp : Nat)
    (hnf : (s_find_character_by_code ctx cp 0).1 = .HD44780_CHAR_NOT_FOUND) :
    s_process_glyph ctx hw cp = (.HD44780_CHAR_NOT_FOUND, hw) := by
  rcases hfe : s_find_character_by_code ctx cp 0 with ⟨r, i⟩
  rw [hfe] at hnf
  simp only at hnf
  subst hnf
  simp [s_process_glyph, hfe]

/-- A successful lookup at slot i performs the address read, the slot-index
data write and the address restore. -/
theorem s_process_glyph_found (ctx : hd44780_ctx) (hw : Hw) (cp : Nat) (i : Nat)
    (hf : s_find_character_by_code ctx cp 0 = (.HD44780_OK, i)) :
    s_process_glyph ctx hw cp =
      (.HD44780_OK,
        (s_set_ddram_addr ctx (hd44780_disp_char ctx (s_read_address ctx hw).2 i).2
          (((s_read_address ctx hw).1 + 1) % 256)).2) := by
  simp [s_process_glyph, hf]

/-- One successful ASCII iteration of the write loop. -/
theorem write_text_ascii_step (ctx : hd44780_ctx) (hw : Hw) (b : Nat) (t : List Nat)
    (h0 : 0 < b) (h7 : b ≤ 0x7F) (hwb : ctx.cb_wait_for_busy_flag_clear = waitBusyOk) :
    hd44780_write_text ctx (b :: t) hw = hd44780_write_text ctx t (s_write_data ctx hw b).2 := by
  have hb : ¬ b = 0 := by omega
  have hsd := s_write_data_okmock ctx hw b hwb
  rcases t with _ | ⟨x, _ | ⟨y, _ | ⟨z, t⟩⟩⟩ <;> simp [hd44780_write_text, hb, h7, hsd]

/-- One mapped two-byte iteration of the write loop; the loop continues
regardless of the statuses of the writes performed by the glyph step. -/
theorem write_text_two_step (ctx : hd44780_ctx) (hw : Hw) (b0 b1 : Nat) (t : List Nat)
    (hlead : 0x7F < b0) (hle : b0 ≤ 0xDF)
    (hf : (s_find_character_by_code ctx (cpTwo b0 b1) 0).1 = .HD44780_OK) :
    hd44780_write_text ctx (b0 :: b1 :: t) hw =
      hd44780_write_text ctx t (s_process_glyph ctx hw (cpTwo b0 b1)).2 := by
  have hb : ¬ b0 = 0 := by omega
  have h7 : ¬ b0 ≤ 0x7F := by omega
  rcases hpg : s_process_glyph ctx hw (cpTwo b0 b1) with ⟨r2, hw2⟩
  have hr2 : r2 = .HD44780_OK := by
    have h1 := s_process_glyph_ret ctx hw (cpTwo b0 b1)
    rw [hpg] at h1
    rw [← h1] at hf
    exact hf
  subst hr2
  rcases t with _ | ⟨x, _ | ⟨y, t⟩⟩ <;> simp [hd44780_write_text, hb, h7, hle, hpg]

/-- One mapped three-byte iteration of the write loop. -/
theorem write_text_three_step (ctx : hd44780_ctx) (hw : Hw) (b0 b1 b2 : Nat) (t : List Nat)
    (hlead : 0xDF < b0) (hle : b0 ≤ 0xEF)
    (hf : (s_find_character_by_code ctx (cpThree b0 b1 b2) 0).1 = .HD44780_OK) :
    hd44780_write_text ctx (b0 :: b1 :: b2 :: t) hw =
      hd44780_write_text ctx t (s_process_glyph ctx hw (cpThree b0 b1 b2)).2 := by
  have hb : ¬ b0 = 0 := by omega
  have h7 : ¬ b0 ≤ 0x7F := by omega
  have hd : ¬ b0 ≤ 0xDF := by omega
  rcases hpg : s_process_glyph ctx hw (cpThree b0 b1 b2) with ⟨r2, hw2⟩
  have hr2 : r2 = .HD44780_OK := by
    have h1 := s_process_glyph_ret ctx hw (cpThree b0 b1 b2)
    rw [hpg] at h1
    rw [← h1] at hf
    exact hf
  subst hr2
  rcases t with _ | ⟨x, t⟩ <;> simp [hd44780_write_text, hb, h7, hd, hle, hpg]

/-- One mapped four-byte iteration of the write loop. -/
theorem write_text_four_step (ctx : hd44780_ctx) (hw : Hw) (b0 b1 b2 b3 : Nat) (t : List Nat)
    (hlead : 0xEF < b0)
    (hf : (s_find_character_by_code ctx (cpFour b0 b1 b2 b3) 0).1 = .HD44780_OK) :
    hd44780_write_text ctx (b0 :: b1 :: b2 :: b3 :: t) hw =
      hd44780_write_text ctx t (s_process_glyph ctx hw (cpFour b0 b1 b2 b3)).2 := by
  have hb : ¬ b0 = 0 := by omega
  have h7 : ¬ b0 ≤ 0x7F := by omega
  have hd : ¬ b0 ≤ 0xDF := by omega
  have he : ¬ b0 ≤ 0xEF := by omega
  rcases hpg : s_process_glyph ctx hw (cpFour b0 b1 b2 b3) with ⟨r2, hw2⟩
  have hr2 : r2 = .HD44780_OK := by
    have h1 := s_process_glyph_ret ctx hw (cpFour b0 b1 b2 b3)
    rw [hpg] at h1
    rw [← h1] at hf
    exact hf
  subst hr2
  simp [hd44780_write_text, hb, h7, hd, he, hpg]

/-- One iteration of the write loop on any renderable character. -/
theorem write_text_char_step (ctx : hd44780_ctx) (hw : Hw) (c : TChar) (t : List Nat)
    (hwb : ctx.cb_wait_for_busy_flag_clear = waitBusyOk)
    (hwf : c.wf) (hr : c.renderable ctx) :
    hd44780_write_text ctx (c.bytes ++ t) hw = hd44780_write_text ctx t (renderChar ctx hw c) := by
  cases c with
  | ascii b =>
    obtain ⟨hb0, hb7⟩ := hwf
    simpa [TChar.bytes, renderChar] using write_text_ascii_step ctx hw b t hb0 hb7 hwb
  | twoByte b0 b1 =>
    obtain ⟨hb0, hb1, _⟩ := hwf
    simp only [TChar.renderable, TChar.cp] at hr
    simpa [TChar.bytes, renderChar] using write_text_two_step ctx hw b0 b1 t hb0 hb1 hr
  | threeByte b0 b1 b2 =>
    obtain ⟨hb0, hb1, _⟩ := hwf
    simp only [TChar.renderable, TChar.cp] at hr
    simpa [TChar.bytes, renderChar] using write_text_three_step ctx hw b0 b1 b2 t hb0 hb1 hr
  | fourByte b0 b1 b2 b3 =>
    obtain ⟨hb0, _⟩ := hwf
    simp only [TChar.renderable, TChar.cp] at hr
    simpa [TChar.bytes, renderChar] using write_text_four_step ctx hw b0 b1 b2 b3 t hb0 hr

/-- An unmapped multi-byte character aborts the loop with no hardware
effect of its own. -/
theorem write_text_char_nf (ctx : hd44780_ctx) (hw : Hw) (c : TChar) (t : List Nat)
    (hwf : c.wf) (hna : c.isAscii = false)
    (hnf : (s_find_character_by_code ctx c.cp 0).1 = .HD44780_CHAR_NOT_FOUND) :
    hd44780_write_text ctx (c.bytes ++ t) hw = (.HD44780_CHAR_NOT_FOUND, hw) := by
  cases c with
  | ascii b => simp [TChar.isAscii] at hna
  | twoByte b0 b1 =>
    obtain ⟨hb0, hb1, _⟩ := hwf
    simp only [TChar.cp] at hnf
    have hb : ¬ b0 = 0 := by omega
    have h7 : ¬ b0 ≤ 0x7F := by omega
    have hpg := s_process_glyph_nf ctx hw (cpTwo b0 b1) hnf
    rcases t with _ | ⟨x, _ | ⟨y, t⟩⟩ <;>
      simp [TChar.bytes, hd44780_write_text, hb, h7, hb1, hpg]
  | threeByte b0 b1 b2 =>
    obtain ⟨hb0, hb1, _⟩ := hwf
    simp only [TChar.cp] at hnf
    have hb : ¬ b0 = 0 := by omega
    have h7 : ¬ b0 ≤ 0x7F := by omega
    have hd : ¬ b0 ≤ 0xDF := by omega
    have hpg := s_process_glyph_nf ctx hw (cpThree b0 b1 b2) hnf
    rcases t with _ | ⟨x, t⟩ <;>
      simp [TChar.bytes, hd44780_write_text, hb, h7, hd, hb1, hpg]
  | fourByte b0 b1 b2 b3 =>
    obtain ⟨hb0, _⟩ := hwf
    simp only [TChar.cp] at hnf
    have hb : ¬ b0 = 0 := by omega
    have h7 : ¬ b0 ≤ 0x7F := by omega
    have hd : ¬ b0 ≤ 0xDF := by omega
    have he : ¬ b0 ≤ 0xEF := by omega
    have hpg := s_process_glyph_nf ctx hw (cpFour b0 b1 b2 b3) hnf
    simp [TChar.bytes, hd44780_write_text, hb, h7, hd, he, hpg]

/-- C3: a string made of renderable characters followed by a well-formed
multi-byte character whose code point is absent from the glyph map makes
hd44780_write_text (driven by the pure-OK busy-wait mock) return
HD44780_CHAR_NOT_FOUND; the hardware trace holds exactly the writes of the
rendered prefix (no rollback) and nothing for the unmapped character or
the rest of the string. -/
theorem write_text_unmapped_aborts (ctx : hd44780_ctx) (hw : Hw) (pre : List TChar) (c : TChar)
    (rest : List Nat)
    (hwb : ctx.cb_wait_for_busy_flag_clear = waitBusyOk)
    (hpre : ∀ c2 ∈ pre, c2.wf ∧ c2.renderable ctx)
    (hcwf : c.wf) (hna : c.isAscii = false)
    (hnf : (s_find_character_by_code ctx c.cp 0).1 = .HD44780_CHAR_NOT_FOUND) :
    hd44780_write_text ctx ((pre.map TChar.bytes).flatten ++ (c.bytes ++ rest)) hw =
      (.HD44780_CHAR_NOT_FOUND, renderText ctx hw pre) := by
  induction pre generalizing hw with
  | nil => simpa [renderText] using write_text_char_nf ctx hw c rest hcwf hna hnf
  | cons c2 pre2 ih =>
    have h2 := hpre c2 (by simp)
    have hjoin : (((c2 :: pre2).map TChar.bytes).flatten ++ (c.bytes ++ rest))
        = c2.bytes ++ ((pre2.map TChar.bytes).flatten ++ (c.bytes ++ rest)) := by
      simp
    rw [hjoin, write_text_char_step ctx hw c2 _ hwb h2.1 h2.2]
    have hrec := ih (renderChar ctx hw c2) (fun c3 h3 => hpre c3 (by simp [h3]))
    simpa [renderText] using hrec

/-- C3 witness: ASCII prefix H, then the unmapped two-byte character
0xC4 0x81 (code point 0x101, absent from the mock map). -/
theorem write_text_unmapped_aborts_witness :
    hd44780_write_text ctxMock
        (([TChar.ascii 0x48].map TChar.bytes).flatten ++
          ((TChar.twoByte 0xC4 0x81).bytes ++ [])) hwEmpty =
      (.HD44780_CHAR_NOT_FOUND, renderText ctxMock hwEmpty [TChar.ascii 0x48]) :=
  write_text_unmapped_aborts ctxMock hwEmpty [TChar.ascii 0x48] (TChar.twoByte 0xC4 0x81) []
    rfl
    (by
      intro c2 h2
      obtain rfl := List.mem_singleton.mp h2
      exact ⟨⟨by decide, by decide⟩, by simp [TChar.renderable]⟩)
    ⟨by decide, by decide, by decide, by decide⟩ rfl (by decide)

/-- C7: a well-formed multi-byte character found in the glyph map at slot i
makes hd44780_write_text emit, for that character, exactly one
instruction-mode address read, one framed data write of the slot index i,
and one framed DDRAM-address-set instruction whose operand is the value
read plus one (as uint8_t), then continue with the rest of the string. -/
theorem write_text_mapped_glyph (ctx : hd44780_ctx) (hw : Hw) (c : TChar) (t : List Nat) (i : Nat)
    (hcwf : c.wf) (hna : c.isAscii = false)
    (hf : s_find_character_by_code ctx c.cp 0 = (.HD44780_OK, i)) :
    hd44780_write_text ctx (c.bytes ++ t) hw =
      hd44780_write_text ctx t
        ((s_set_ddram_addr ctx (hd44780_disp_char ctx (s_read_address ctx hw).2 i).2
          (((s_read_address ctx hw).1 + 1) % 256)).2) := by
  have hr : (s_find_character_by_code ctx c.cp 0).1 = .HD44780_OK := by rw [hf]
  have hglyph := s_process_glyph_found ctx hw c.cp i hf
  cases c with
  | ascii b => simp [TChar.isAscii] at hna
  | twoByte b0 b1 =>
    obtain ⟨hb0, hb1, _⟩ := hcwf
    simp only [TChar.cp] at hr hglyph
    rw [show (TChar.twoByte b0 b1).bytes ++ t = b0 :: b1 :: t by simp [TChar.bytes],
      write_text_two_step ctx hw b0 b1 t hb0 hb1 hr, hglyph]
  | threeByte b0 b1 b2 =>
    obtain ⟨hb0, hb1, _⟩ := hcwf
    simp only [TChar.cp] at hr hglyph
    rw [show (TChar.threeByte b0 b1 b2).bytes ++ t = b0 :: b1 :: b2 :: t by simp [TChar.bytes],
      write_text_three_step ctx hw b0 b1 b2 t hb0 hb1 hr, hglyph]
  | fourByte b0 b1 b2 b3 =>
    obtain ⟨hb0, _⟩ := hcwf
    simp only [TChar.cp] at hr hglyph
    rw [show (TChar.fourByte b0 b1 b2 b3).bytes ++ t = b0 :: b1 :: b2 :: b3 :: t by
        simp [TChar.bytes],
      write_text_four_step ctx hw b0 b1 b2 b3 t hb0 hr, hglyph]

/-- C7 witness: the mapped character 0xC4 0x80 (code point 0x100, slot 0)
followed by an exclamation mark. -/
theorem write_text_mapped_glyph_witness :
    hd44780_write_text ctxMock ((TChar.twoByte 0xC4 0x80).bytes ++ [0x21]) hwEmpty =
      hd44780_write_text ctxMock [0x21]
        ((s_set_ddram_addr ctxMock
          (hd44780_disp_char ctxMock (s_read_address ctxMock hwEmpty).2 0).2
          (((s_read_address ctxMock hwEmpty).1 + 1) % 256)).2) :=
  write_text_mapped_glyph ctxMock hwEmpty (TChar.twoByte 0xC4 0x80) [0x21] 0
    ⟨by decide, by decide, by decide, by decide⟩ rfl (by decide)

/-- C2 (amended): a TIMEOUT of the framed ASCII data write aborts
hd44780_write_text immediately with HD44780_TIMEOUT and no further bus
transactions; the glyph-path data write and DDRAM-address-restore statuses
are discarded, so the loop continues with the rest of the string whatever
those framed writes report. -/
theorem write_text_timeout_propagation :
    (∀ (ctx : hd44780_ctx) (hw : Hw) (b : Nat) (t : List Nat), 0 < b → b ≤ 0x7F →
      (s_write_data ctx hw b).1 = .HD44780_TIMEOUT →
      hd44780_write_text ctx (b :: t) hw = (.HD44780_TIMEOUT, (s_write_data ctx hw b).2)) ∧
    (∀ (ctx : hd44780_ctx) (hw : Hw) (b0 b1 : Nat) (t : List Nat), 0x7F < b0 → b0 ≤ 0xDF →
      (s_find_character_by_code ctx (cpTwo b0 b1) 0).1 = .HD44780_OK →
      hd44780_write_text ctx (b0 :: b1 :: t) hw =
        hd44780_write_text ctx t (s_process_glyph ctx hw (cpTwo b0 b1)).2) := by
  constructor
  · intro ctx hw b t h0 h7 htmo
    have hb : ¬ b = 0 := by omega
    rcases hsd : s_write_data ctx hw b with ⟨r, hw1⟩
    rw [hsd] at htmo
    simp only at htmo
    subst htmo
    rcases t with _ | ⟨x, _ | ⟨y, _ | ⟨z, t⟩⟩⟩ <;> simp [hd44780_write_text, hb, h7, hsd]
  · intro ctx hw b0 b1 t hlead hle hf
    exact write_text_two_step ctx hw b0 b1 t hlead hle hf

/-- C2 counterexample: with a busy-wait callback that always reports
TIMEOUT, the glyph-path data write performed during the loop (at exactly
the state it is reached) reports TIMEOUT, yet hd44780_write_text returns
HD44780_OK instead of stopping with HD44780_TIMEOUT. -/
theorem write_text_timeout_cex :
    (hd44780_disp_char ctxTimeoutCb (s_read_address ctxTimeoutCb hwEmpty).2 0).1 =
        .HD44780_TIMEOUT ∧
    (hd44780_write_text ctxTimeoutCb [0xC4, 0x80] hwEmpty).1 = .HD44780_OK := by
  decide

/-- C2 witness: the ASCII abort and the glyph-path continuation at concrete
inputs. -/
theorem write_text_timeout_propagation_witness :
    hd44780_write_text ctxTimeoutCb [0x48] hwEmpty =
      (.HD44780_TIMEOUT, (s_write_data ctxTimeoutCb hwEmpty 0x48).2) ∧
    hd44780_write_text ctxTimeoutCb [0xC4, 0x80] hwEmpty =
      hd44780_write_text ctxTimeoutCb []
        (s_process_glyph ctxTimeoutCb hwEmpty (cpTwo 0xC4 0x80)).2 :=
  ⟨write_text_timeout_propagation.1 ctxTimeoutCb hwEmpty 0x48 []
      (by decide) (by decide) (by decide),
   write_text_timeout_propagation.2 ctxTimeoutCb hwEmpty 0xC4 0x80 []
      (by decide) (by decide) (by decide)⟩

set_option maxRecDepth 100000 in
/-- OR-ing in a value below 16 cannot clear bit 7 of a byte (byte-bounded
fact, settled by enumeration). -/
theorem busy_bit_or : ∀ a, a < 256 → ∀ s, s < 16 → a &&& 0x80 ≠ 0 → (a ||| s) &&& 0x80 ≠ 0 := by
  decide

/-- Counting delays distributes over trace concatenation. -/
theorem countDelay_append (l1 l2 : List bus_event) :
    countDelay (l1 ++ l2) = countDelay l1 + countDelay l2 :=
  List.countP_append _ l1 l2

/-- Reading the busy flag does not change the read oracle. -/
theorem is_busy_readStream (ctx : hd44780_ctx) (hw : Hw) :
    ((hd44780_is_busy ctx hw).2).readStream = hw.readStream := by
  cases hI : ctx.interface <;>
    simp [hd44780_is_busy, s_read_address, s_read_byte, s_read_operation, s_config_bus_as_input,
      cb_set_ctrl_pin_state, cb_set_bus_direction, cb_read_bus, Hw.emit, hI]

/-- Reading the busy flag emits no delay events. -/
theorem is_busy_countDelay (ctx : hd44780_ctx) (hw : Hw) :
    countDelay ((hd44780_is_busy ctx hw).2).trace = countDelay hw.trace := by
  cases hI : ctx.interface <;>
    simp [hd44780_is_busy, s_read_address, s_read_byte, s_read_operation, s_config_bus_as_input,
      cb_set_ctrl_pin_state, cb_set_bus_direction, cb_read_bus, Hw.emit, hI,
      countDelay, List.countP_append, List.countP_cons]

/-- When every byte the bus can deliver has bit 7 set, the busy check
reports busy (in both bus modes: in 4-bit mode the second nibble, shifted
down below 16, cannot clear bit 7). -/
theorem is_busy_true_of_stream (ctx : hd44780_ctx) (hw : Hw)
    (hb : ∀ n, hw.readStream n % 256 &&& 0x80 ≠ 0) :
    (hd44780_is_busy ctx hw).1 = true := by
  cases hI : ctx.interface with
  | INTERFACE_8BIT =>
    simp [hd44780_is_busy, s_read_address, s_read_byte, s_read_operation, s_config_bus_as_input,
      cb_set_ctrl_pin_state, cb_set_bus_direction, cb_read_bus, Hw.emit, hI]
    exact hb _
  | INTERFACE_4BIT =>
    simp [hd44780_is_busy, s_read_address, s_read_byte, s_read_operation, s_config_bus_as_input,
      cb_set_ctrl_pin_state, cb_set_bus_direction, cb_read_bus, Hw.emit, hI]
    apply busy_bit_or _ (by omega) _ ?_ (hb _)
    rw [Nat.shiftRight_eq_div_pow]
    omega

/-- With the busy flag never clearing, every fuel unit of the wait loop
performs one poll followed by one delay tick and the loop ends in TIMEOUT. -/
theorem wait_aux_timeout (ctx : hd44780_ctx) :
    ∀ (fuel : Nat) (hw : Hw), (∀ n, hw.readStream n % 256 &&& 0x80 ≠ 0) →
      (s_wait_till_busy_aux ctx fuel hw).1 = .HD44780_TIMEOUT ∧
      countDelay (s_wait_till_busy_aux ctx fuel hw).2.trace = countDelay hw.trace + fuel := by
  intro fuel
  induction fuel with
  | zero => intro hw hb; simp [s_wait_till_busy_aux]
  | succ f ih =>
    intro hw hb
    have hbt : (hd44780_is_busy ctx hw).1 = true := is_busy_true_of_stream ctx hw hb
    have hpres : (cb_delay_ms HD44780_TIMEOUT_TICK_MS (hd44780_is_busy ctx hw).2).readStream
        = hw.readStream := by
      simp [cb_delay_ms, Hw.emit, is_busy_readStream]
    have hstep := ih (cb_delay_ms HD44780_TIMEOUT_TICK_MS (hd44780_is_busy ctx hw).2)
      (by rw [hpres]; exact hb)
    have hcd : countDelay (cb_delay_ms HD44780_TIMEOUT_TICK_MS (hd44780_is_busy ctx hw).2).trace
        = countDelay hw.trace + 1 := by
      have h1 : (cb_delay_ms HD44780_TIMEOUT_TICK_MS (hd44780_is_busy ctx hw).2).trace
          = ((hd44780_is_busy ctx hw).2).trace
            ++ [bus_event.delayMs HD44780_TIMEOUT_TICK_MS] := rfl
      rw [h1, countDelay_append, is_busy_countDelay]
      rfl
    constructor
    · simp only [s_wait_till_busy_aux, hbt, if_true]
      exact hstep.1
    · simp only [s_wait_till_busy_aux, hbt, if_true]
      rw [hstep.2, hcd]
      omega

/-- Shifting the poll index by one wait-loop iteration. -/
theorem pollState_shift (ctx : hd44780_ctx) (hw : Hw) :
    ∀ j, pollState ctx (pollState ctx hw 1) j = pollState ctx hw (j + 1) := by
  intro j
  induction j with
  | zero => rfl
  | succ k ih =>
    have h1 : pollState ctx (pollState ctx hw 1) (k + 1)
        = cb_delay_ms HD44780_TIMEOUT_TICK_MS
            (hd44780_is_busy ctx (pollState ctx (pollState ctx hw 1) k)).2 := rfl
    rw [h1, ih]
    rfl

/-- If the first k polls see busy and poll k sees the flag clear, the wait
loop (given enough fuel) stops right at poll k with OK. -/
theorem wait_aux_ok (ctx : hd44780_ctx) :
    ∀ (k fuel : Nat) (hw : Hw), k < fuel →
      (∀ j, j < k → (hd44780_is_busy ctx (pollState ctx hw j)).1 = true) →
      (hd44780_is_busy ctx (pollState ctx hw k)).1 = false →
      s_wait_till_busy_aux ctx fuel hw
        = (.HD44780_OK, (hd44780_is_busy ctx (pollState ctx hw k)).2) := by
  intro k
  induction k with
  | zero =>
    intro fuel hw hkf hbusy hclear
    obtain ⟨f, rfl⟩ : ∃ f, fuel = f + 1 := ⟨fuel - 1, by omega⟩
    simp only [pollState] at hclear
    simp [s_wait_till_busy_aux, hclear, pollState]
  | succ k ih =>
    intro fuel hw hkf hbusy hclear
    obtain ⟨f, rfl⟩ : ∃ f, fuel = f + 1 := ⟨fuel - 1, by omega⟩
    have hb0 : (hd44780_is_busy ctx hw).1 = true := hbusy 0 (by omega)
    have hshift1 : cb_delay_ms HD44780_TIMEOUT_TICK_MS (hd44780_is_busy ctx hw).2
        = pollState ctx hw 1 := rfl
    have hrec := ih f (pollState ctx hw 1) (by omega)
      (fun j hj => by rw [pollState_shift]; exact hbusy (j + 1) (by omega))
      (by rw [pollState_shift]; exact hclear)
    simp only [s_wait_till_busy_aux, hb0, if_true, hshift1, hrec, pollState_shift]

/-- C6 (amended): the default busy-wait s_wait_till_busy returns OK at the
first poll that observes the busy flag clear (bit 7 of an instruction-mode
read), sleeping one HD44780_TIMEOUT_TICK_MS tick between polls; when the
flag never clears it returns TIMEOUT after exactly
HD44780_TIMEOUT_MS / HD44780_TIMEOUT_TICK_MS + 1 = 101 poll attempts (one
delay tick each), not 100: the C loop runs for timeout_ms = 100 down to 0
inclusive. -/
theorem wait_till_busy_poll_count :
    (∀ (ctx : hd44780_ctx) (hw : Hw) (k : Nat), k ≤ HD44780_TIMEOUT_MS →
      (∀ j, j < k → (hd44780_is_busy ctx (pollState ctx hw j)).1 = true) →
      (hd44780_is_busy ctx (pollState ctx hw k)).1 = false →
      s_wait_till_busy ctx hw = (.HD44780_OK, (hd44780_is_busy ctx (pollState ctx hw k)).2)) ∧
    (∀ (ctx : hd44780_ctx) (hw : Hw), (∀ n, hw.readStream n % 256 &&& 0x80 ≠ 0) →
      (s_wait_till_busy ctx hw).1 = .HD44780_TIMEOUT ∧
      countDelay (s_wait_till_busy ctx hw).2.trace =
        countDelay hw.trace + (HD44780_TIMEOUT_MS / HD44780_TIMEOUT_TICK_MS + 1)) := by
  constructor
  · intro ctx hw k hk hbusy hclear
    exact wait_aux_ok ctx k (HD44780_TIMEOUT_MS / HD44780_TIMEOUT_TICK_MS + 1) hw
      (by simp [HD44780_TIMEOUT_MS, HD44780_TIMEOUT_TICK_MS] at hk ⊢; omega) hbusy hclear
  · intro ctx hw hb
    exact wait_aux_timeout ctx (HD44780_TIMEOUT_MS / HD44780_TIMEOUT_TICK_MS + 1) hw hb

set_option maxRecDepth 1000000 in
/-- C6 counterexample: on a bus that always reports busy, the default
busy-wait performs 101 polls (and 101 delay ticks), not the 100 the claim
states. -/
theorem wait_till_busy_poll_count_cex :
    (s_wait_till_busy ctxMock hwBusy).1 = .HD44780_TIMEOUT ∧
    countRead (s_wait_till_busy ctxMock hwBusy).2.trace = 101 ∧
    countDelay (s_wait_till_busy ctxMock hwBusy).2.trace = 101 ∧
    countRead (s_wait_till_busy ctxMock hwBusy).2.trace ≠ 100 := by
  exact ⟨rfl, rfl, rfl, by decide⟩

set_option maxRecDepth 1000000 in
/-- C6 witness: the flag is clear at the very first poll on the all-zero
bus, and the all-busy bus shows the 101-poll TIMEOUT. -/
theorem wait_till_busy_poll_count_witness :
    s_wait_till_busy ctxMock hwEmpty =
      (.HD44780_OK, (hd44780_is_busy ctxMock (pollState ctxMock hwEmpty 0)).2) ∧
    ((s_wait_till_busy ctxMock hwBusy).1 = .HD44780_TIMEOUT ∧
      countDelay (s_wait_till_busy ctxMock hwBusy).2.trace =
        countDelay hwBusy.trace + (HD44780_TIMEOUT_MS / HD44780_TIMEOUT_TICK_MS + 1)) :=
  ⟨wait_till_busy_poll_count.1 ctxMock hwEmpty 0 (by decide)
      (fun j hj => absurd hj (Nat.not_lt_zero j)) (by decide),
   wait_till_busy_poll_count.2 ctxMock hwBusy
      (fun n => by show (0x80 : Nat) % 256 &&& 0x80 ≠ 0; decide)⟩
